import Mathlib

/-!
Verification of the `oci2disk` image pipeline
(`oci2disk/image/image.go` of tinkerbell-community/actions).

The development shallowly embeds the Go source:

* `filepathExt` models Go's `filepath.Ext` as used on annotation titles;
* `findDecompressor` models the codec selector (`findDecompressor`),
  with the eager header checks of the gzip/xz constructors pinned by the
  repository's own `Test_findDecompressor` (gzip/xz fail on a foreign
  header; bzip2 and zstd construction is lazy and never fails);
* `ProgressSt`/`ioCopy` model the `Progress` byte-counting wrapper and
  the `io.Copy` loop driving it;
* `processLayers`/`runWrite` model the layer loop and the whole `Write`
  function, with registry/device interactions abstracted into an
  environment record that supplies each external call's outcome;
* a small interleaving model captures the progress-reporter goroutine
  and its unbuffered `done` channel.
-/

namespace Oci2Disk

/-! ## Codec selector (`findDecompressor`) -/

/-- Scan a reversed character list for Go's `filepath.Ext`:
walking backwards, stop at a path separator (no extension) or at a dot
(the extension is the dot plus everything scanned so far). -/
def extRev : List Char → List Char → Option (List Char)
  | [], _ => none
  | c :: rest, acc =>
    if c = '/' then none
    else if c = '.' then some ('.' :: acc)
    else extRev rest (c :: acc)

/-- Model of Go `filepath.Ext`: the suffix beginning at the final dot in
the final slash-separated element of the path; empty if there is no dot. -/
def filepathExt (s : String) : String :=
  match extRev s.data.reverse [] with
  | some l => String.mk l
  | none => ""

/-- The concrete decompression codecs of the dispatch table. -/
inductive Codec
  | bzip2
  | gzip
  | xz
  | zstd
deriving DecidableEq, Repr

/-- Which codec's header (if any) the bytes of a fetched layer begin
with.  `none` stands for content that matches no supported codec. -/
abbrev Header := Option Codec

/-- Errors of `findDecompressor`: an unrecognized suffix (the final
`unknown compression suffix [%s]` error, carrying `filepath.Ext`'s
result), or a failed codec constructor (`gzip.NewReader` /
`xz.NewReader` rejecting the stream header). -/
inductive FindErr
  | unsupportedCodec (ext : String)
  | codecInit (c : Codec)
deriving DecidableEq, Repr

/-- Does the codec's reader constructor succeed on content bearing the
given header?  `bzip2.NewReader` and `zstd.NewReader` do not read the
stream eagerly and never fail at construction; `gzip.NewReader` and
`xz.NewReader` read and validate the header eagerly
(behaviour pinned by `Test_findDecompressor`). -/
def codecInitOk (c : Codec) (hdr : Header) : Bool :=
  match c with
  | .bzip2 => true
  | .zstd => true
  | .gzip => hdr = some Codec.gzip
  | .xz => hdr = some Codec.xz

/-- Model of `findDecompressor(imageURL, r)`: switch on
`filepath.Ext(imageURL)`; known suffixes construct the corresponding
codec's reader (failing when the eager constructors reject the header),
anything else is the unknown-suffix error. -/
def findDecompressor (imageURL : String) (hdr : Header) : Except FindErr Codec :=
  match filepathExt imageURL with
  | ".bzip2" => .ok .bzip2
  | ".bz2" => .ok .bzip2
  | ".gz" =>
    if codecInitOk .gzip hdr then .ok .gzip else .error (.codecInit .gzip)
  | ".xz" =>
    if codecInitOk .xz hdr then .ok .xz else .error (.codecInit .xz)
  | ".zs" => .ok .zstd
  | ".zst" => .ok .zstd
  | e => .error (.unsupportedCodec e)

/-! ## Progress-tracked stream (`Progress`) and the `io.Copy` loop

`Progress` wraps one writer and one reader and keeps two `atomic.Int64`
byte counters.  `Read` delegates to the reader and adds the returned
count; `Write` delegates to the writer and adds the count actually
written.  `io.Copy(progress, progress)` drives both.  Byte counts are
modelled as `Nat` (they are sums of non-negative per-call counts). -/

/-- The two counters of a `Progress` value. -/
structure ProgressSt where
  rBytes : Nat
  wBytes : Nat
deriving DecidableEq, Repr

/-- A fresh `Progress` (`NewProgress`): both counters zero. -/
def ProgressSt.init : ProgressSt := ⟨0, 0⟩

/-- Effect of one `Progress.Read` call on the counters, where `nr` is
the byte count the underlying reader returned. -/
def progRead (st : ProgressSt) (nr : Nat) : ProgressSt :=
  { st with rBytes := st.rBytes + nr }

/-- Effect of one `Progress.Write` call on the counters, where `nw` is
the byte count the underlying writer actually accepted. -/
def progWrite (st : ProgressSt) (nw : Nat) : ProgressSt :=
  { st with wBytes := st.wBytes + nw }

/-- Sink behaviour: on the `i`-th write call with `req` bytes requested,
the sink accepts `req` bytes when its capacity schedule says `none`, and
`min c req` bytes when it says `some c` (a possibly-partial write). -/
def sinkAccept (caps : Nat → Option Nat) (i req : Nat) : Nat :=
  match caps i with
  | none => req
  | some c => min c req

/-- Model of the `io.Copy(progress, progress)` loop.  The error-free
source delivers the successive chunks of `chunks` (partial reads
allowed), then end-of-stream.  Each positive read is followed by one
write; a write accepting fewer bytes than requested aborts the copy
with `io.ErrShortWrite` (flag `false`).  Returns the final counters,
the bytes delivered to the sink, and whether the copy completed. -/
def ioCopy (caps : Nat → Option Nat) :
    List (List Nat) → Nat → ProgressSt → List Nat →
    ProgressSt × List Nat × Bool
  | [], _, st, out => (st, out, true)
  | chunk :: rest, i, st, out =>
    let st1 := progRead st chunk.length
    if chunk.length = 0 then
      ioCopy caps rest i st1 out
    else
      let nw := sinkAccept caps i chunk.length
      let st2 := progWrite st1 nw
      let out1 := out ++ chunk.take nw
      if nw < chunk.length then (st2, out1, false)
      else ioCopy caps rest (i + 1) st2 out1

/-! ## The `Write` pipeline

`Write(sourceImage, destinationDevice)` is modelled as a pure function
over an environment record supplying the outcome of every external
interaction (registry calls, device open, sync, ioctl) and, per
manifest layer, the manifest-declared fields together with the fetched
content and the runtime outcome of its fetch and copy.  Decompression
itself is abstracted as a parameter `dec : Codec → List Nat → List Nat`
giving each codec's decoding function. -/

/-- The single recognized layer media type (`customMediaType`). -/
def customMediaType : String := "application/vnd.oci.image.layer.v1.tar"

/-- `ocispec.AnnotationTitle`. -/
def annotationTitle : String := "org.opencontainers.image.title"

/-- Outcome of the `io.Copy` call for one layer: either the copy
completes, or it fails after `prefixLen` bytes of the (possibly
decompressed) stream reached the device. -/
inductive CopyOutcome
  | ok
  | fail (prefixLen : Nat)
deriving DecidableEq, Repr

/-- One manifest layer (`ocispec.Descriptor` fields used by `Write`)
together with the runtime behaviour of the external calls made for it:
the raw fetched bytes, which codec header those bytes carry, whether
`repo.Fetch` succeeds, and the outcome of the copy to the device. -/
structure LayerB where
  mediaType : String
  digest : String
  size : Int
  annotations : Option (List (String × String))
  content : List Nat
  headerCodec : Header
  fetchOk : Bool
  copy : CopyOutcome
deriving DecidableEq, Repr

/-- Log lines of `Write` (reporter-goroutine lines are treated in the
dedicated reporter model below). -/
inductive LogEvent
  | infoBegin
  | infoPlatform (os arch : String)
  | debugSkip (mediaType : String)
  | infoFetchLayer (digest : String) (size : Int)
  | infoSummary (layers : Nat) (totalBytes : Nat)
  | warnSyncFailed
  | warnReprobeFailed
deriving DecidableEq, Repr

inductive Severity
  | debug
  | info
  | warn
deriving DecidableEq, Repr

/-- Severity of each log line (`log.Debugf` / `log.Infof` / `log.Warnf`). -/
def LogEvent.severity : LogEvent → Severity
  | .debugSkip _ => .debug
  | .warnSyncFailed => .warn
  | .warnReprobeFailed => .warn
  | _ => .info

/-- The error results of `Write`, one constructor per `return` site. -/
inductive WriteErr
  | repoCreateFailed
  | openDeviceFailed
  | refInvalid
  | resolveFailed
  | manifestFetchFailed
  | manifestParseFailed
  | layerFetchFailed (digest : String)
  | decompressorFailed (cause : FindErr)
  | deviceWriteFailed
  | noMatchingLayers
deriving DecidableEq, Repr

/-- Observable state threaded through the layer loop: bytes on the
destination device, emitted log lines, digests of layers whose content
was fetched, and digests of fetched streams not yet closed. -/
structure PipeSt where
  device : List Nat
  logs : List LogEvent
  fetched : List String
  openStreams : List String
deriving DecidableEq, Repr

/-- `layerReader.Close()` for the stream of layer `d`. -/
def closeStream (d : String) (st : PipeSt) : PipeSt :=
  { st with openStreams := st.openStreams.erase d }

/-- The decompressor chosen for a layer, mirroring lines 157–172 of
`Write`: no annotation map or no title key means pass-through
(`sourceReader = layerReader`); a present title key runs
`findDecompressor` on it, whose failure aborts the layer. -/
def selectDecompressor (l : LayerB) : Except FindErr (Option Codec) :=
  match l.annotations with
  | none => .ok none
  | some m =>
    match m.lookup annotationTitle with
    | none => .ok none
    | some t =>
      match findDecompressor t l.headerCodec with
      | .ok c => .ok (some c)
      | .error e => .error e

/-- The bytes a completed copy of this layer delivers to the device:
the fetched bytes unchanged in pass-through mode, otherwise the
selected codec's decoding of them. -/
def layerOutput (dec : Codec → List Nat → List Nat) (l : LayerB)
    (sel : Option Codec) : List Nat :=
  match sel with
  | none => l.content
  | some c => dec c l.content

/-- The layer loop of `Write` (lines 141–218): skip non-matching media
types with a debug line; fetch, select a decompressor, copy, close the
streams; accumulate `totalBytes` and `processedLayers`; abort the run
on the first fetch, decompressor-init or copy error. -/
def processLayers (dec : Codec → List Nat → List Nat) :
    List LayerB → PipeSt → Nat → Nat → PipeSt × Except WriteErr (Nat × Nat)
  | [], st, total, processed => (st, .ok (total, processed))
  | l :: rest, st, total, processed =>
    if l.mediaType ≠ customMediaType then
      processLayers dec rest
        { st with logs := st.logs ++ [.debugSkip l.mediaType] } total processed
    else
      let st1 : PipeSt := { st with logs := st.logs ++ [.infoFetchLayer l.digest l.size] }
      if ¬ l.fetchOk then
        (st1, .error (.layerFetchFailed l.digest))
      else
        let st2 : PipeSt := { st1 with
          fetched := st1.fetched ++ [l.digest]
          openStreams := st1.openStreams ++ [l.digest] }
        match selectDecompressor l with
        | .error e => (closeStream l.digest st2, .error (.decompressorFailed e))
        | .ok sel =>
          let outBytes := layerOutput dec l sel
          match l.copy with
          | .ok =>
            let st3 := closeStream l.digest
              { st2 with device := st2.device ++ outBytes }
            processLayers dec rest st3 (total + outBytes.length) (processed + 1)
          | .fail k =>
            let st3 := closeStream l.digest
              { st2 with device := st2.device ++ outBytes.take k }
            (st3, .error .deviceWriteFailed)

/-- Does a layer carry the single recognized media type?
(`layer.MediaType != customMediaType` is the skip condition.) -/
def layerMatches (l : LayerB) : Bool :=
  l.mediaType = customMediaType

/-- The log lines one layer contributes to the loop when it is skipped
or processed without error. -/
def perLayerLogs (l : LayerB) : List LogEvent :=
  if layerMatches l then [.infoFetchLayer l.digest l.size]
  else [.debugSkip l.mediaType]

/-- The bytes a layer delivers to the device when its decompressor
selection succeeds and its copy completes. -/
def goodOutput (dec : Codec → List Nat → List Nat) (l : LayerB) : List Nat :=
  match selectDecompressor l with
  | .ok sel => layerOutput dec l sel
  | .error _ => []

/-- The environment of one `Write` invocation: outcomes of the
registry/device interactions that precede and follow the layer loop,
and the manifest layers themselves. -/
structure Env where
  repoOk : Bool
  tagOrDigest : String
  openOk : Bool
  pathExisted : Bool
  goarch : String
  resolveOk : Bool
  manifestFetchOk : Bool
  manifestParseOk : Bool
  layers : List LayerB
  syncOk : Bool
  ioctlOk : Bool

/-- All stages of `Write` preceding the layer loop succeed. -/
def stagesOk (env : Env) : Prop :=
  env.repoOk = true ∧ env.openOk = true ∧ env.tagOrDigest ≠ "" ∧
  env.resolveOk = true ∧ env.manifestFetchOk = true ∧ env.manifestParseOk = true

/-- The log lines emitted before the layer loop: the beginning line and
(as `platformOS` is the constant `"linux"`) the platform-filter line
whenever `runtime.GOARCH` is non-empty. -/
def preLoopLogs (env : Env) : List LogEvent :=
  if env.goarch ≠ "" then
    [LogEvent.infoBegin, LogEvent.infoPlatform "linux" env.goarch]
  else
    [LogEvent.infoBegin]

/-- Everything observable about one `Write` invocation. -/
structure WResult where
  result : Except WriteErr Unit
  device : List Nat
  logs : List LogEvent
  fetched : List String
  openStreams : List String
  deviceOpened : Bool
  deviceCreated : Bool
  deviceClosed : Bool
deriving Repr

/-- Model of `Write`, in source order: create the repository handle;
open the destination device with `O_CREATE|O_WRONLY` (creating it when
absent) and defer its close; log the beginning; reject an empty
tag-or-digest; log the platform filter; resolve, fetch and parse the
manifest; run the layer loop; fail when no layer was processed; log the
summary; sync and re-probe the device, each failure only a warning. -/
def runWrite (dec : Codec → List Nat → List Nat) (env : Env) : WResult :=
  if ¬ env.repoOk then
    { result := .error .repoCreateFailed, device := [], logs := [], fetched := [],
      openStreams := [], deviceOpened := false, deviceCreated := false,
      deviceClosed := false }
  else if ¬ env.openOk then
    { result := .error .openDeviceFailed, device := [], logs := [], fetched := [],
      openStreams := [], deviceOpened := false, deviceCreated := false,
      deviceClosed := false }
  else
    -- the device is open from here on; `defer fileOut.Close()` closes it
    -- on every following return path
    let created := !env.pathExisted
    let logs0 := [LogEvent.infoBegin]
    if env.tagOrDigest = "" then
      { result := .error .refInvalid, device := [], logs := logs0, fetched := [],
        openStreams := [], deviceOpened := true, deviceCreated := created,
        deviceClosed := true }
    else
      let logs1 := preLoopLogs env
      if ¬ env.resolveOk then
        { result := .error .resolveFailed, device := [], logs := logs1, fetched := [],
          openStreams := [], deviceOpened := true, deviceCreated := created,
          deviceClosed := true }
      else if ¬ env.manifestFetchOk then
        { result := .error .manifestFetchFailed, device := [], logs := logs1,
          fetched := [], openStreams := [], deviceOpened := true,
          deviceCreated := created, deviceClosed := true }
      else if ¬ env.manifestParseOk then
        { result := .error .manifestParseFailed, device := [], logs := logs1,
          fetched := [], openStreams := [], deviceOpened := true,
          deviceCreated := created, deviceClosed := true }
      else
        let r := processLayers dec env.layers ⟨[], logs1, [], []⟩ 0 0
        match r.2 with
        | .error e =>
          { result := .error e, device := r.1.device, logs := r.1.logs,
            fetched := r.1.fetched, openStreams := r.1.openStreams,
            deviceOpened := true, deviceCreated := created, deviceClosed := true }
        | .ok (total, processed) =>
          if processed = 0 then
            { result := .error .noMatchingLayers, device := r.1.device,
              logs := r.1.logs, fetched := r.1.fetched,
              openStreams := r.1.openStreams, deviceOpened := true,
              deviceCreated := created, deviceClosed := true }
          else
            let logs2 := r.1.logs ++ [LogEvent.infoSummary processed total]
            let logs3 := if ¬ env.syncOk then logs2 ++ [LogEvent.warnSyncFailed] else logs2
            let logs4 := if ¬ env.ioctlOk then logs3 ++ [LogEvent.warnReprobeFailed] else logs3
            { result := .ok (), device := r.1.device, logs := logs4,
              fetched := r.1.fetched, openStreams := r.1.openStreams,
              deviceOpened := true, deviceCreated := created, deviceClosed := true }

/-! ## The progress reporter and its stop protocol

Per layer, `Write` starts one goroutine looping over a `select` on a
5-second ticker and an unbuffered `done` channel; on a tick it logs a
progress line and loops, on `done` it logs one final progress line and
returns.  After the copy, the orchestrator runs `ticker.Stop()`,
`done <- true` (an unbuffered send, completing exactly when the
goroutine's receive fires) and then closes the decompressor and the
fetched stream.  The interleavings of the two tasks from the point the
copy has finished are modelled as a small transition system. -/

/-- Reporter goroutine phase: in the `select` loop; received on `done`
but not yet executed the final `log.Infof`; or returned. -/
inductive RepPhase
  | waiting
  | gotStop
  | finished
deriving DecidableEq, Repr

/-- Orchestrator phase after the copy: before `done <- true`; send
completed; decompressor and fetched stream closed. -/
inductive OrchPhase
  | beforeStop
  | sentStop
  | closed
deriving DecidableEq, Repr

/-- Joint state: task phases, the number of tick-driven progress lines
and of final progress lines logged, and whether the orchestrator has
released the decompressor and fetched stream. -/
structure RepSt where
  rep : RepPhase
  orch : OrchPhase
  tickReports : Nat
  finalReports : Nat
  resourcesReleased : Bool
deriving DecidableEq, Repr

/-- State when the copy finishes: reporter still waiting, nothing yet
logged by the stop protocol, resources still held.  (Any tick lines
logged during the copy are not counted; the claim concerns the final
report, and a copy finishing before the first tick has none anyway.) -/
def RepSt.init : RepSt := ⟨.waiting, .beforeStop, 0, 0, false⟩

/-- The atomic steps of the two tasks. -/
inductive RepStep
  | tick
  | stopSync
  | emitFinal
  | close
deriving DecidableEq, Repr

/-- One step of the interleaved execution: a ticker fire logs a
progress line while the reporter waits; the unbuffered `done` send and
its receive are one rendezvous; the reporter then logs the final line
and returns; the orchestrator, once its send has completed, closes the
decompressor and the fetched stream. -/
def repStep (s : RepSt) : RepStep → Option RepSt
  | .tick =>
    if s.rep = RepPhase.waiting then
      some { s with tickReports := s.tickReports + 1 }
    else none
  | .stopSync =>
    if s.rep = RepPhase.waiting ∧ s.orch = OrchPhase.beforeStop then
      some { s with rep := .gotStop, orch := .sentStop }
    else none
  | .emitFinal =>
    if s.rep = RepPhase.gotStop then
      some { s with rep := .finished, finalReports := s.finalReports + 1 }
    else none
  | .close =>
    if s.orch = OrchPhase.sentStop then
      some { s with orch := .closed, resourcesReleased := true }
    else none

/-- Run a schedule of steps; `none` when a step is not enabled. -/
def repRun (s : RepSt) : List RepStep → Option RepSt
  | [] => some s
  | step :: rest =>
    match repStep s step with
    | none => none
    | some s1 => repRun s1 rest

/-- Invariant of the stop protocol: the final report has been logged
exactly when the reporter has finished; resources are released exactly
when the orchestrator reached its last phase; and once the
orchestrator's send has completed the reporter is no longer waiting
(the rendezvous happened). -/
def repInv (s : RepSt) : Prop :=
  (s.finalReports = if s.rep = RepPhase.finished then 1 else 0) ∧
  (s.resourcesReleased = true ↔ s.orch = OrchPhase.closed) ∧
  (s.orch ≠ OrchPhase.beforeStop → s.rep ≠ RepPhase.waiting)

/-! ## Concrete fixtures used by the witnesses -/

/-- A decoding assignment where every codec acts as the identity. -/
def decId : Codec → List Nat → List Nat := fun _ b => b

/-- A matching, annotation-free layer whose fetch and copy succeed. -/
def wLayerTar : LayerB :=
  ⟨customMediaType, "sha256:a", 1, none, [7], none, true, .ok⟩

/-- A layer of an unrelated media type. -/
def wLayerOther : LayerB :=
  ⟨"text/plain", "sha256:b", 2, none, [9], none, true, .ok⟩

/-- A matching layer whose title annotation has the `.xz` suffix while
its content is gzip-encoded, so decompressor construction fails. -/
def wLayerXzBad : LayerB :=
  ⟨customMediaType, "sha256:c", 3, some [(annotationTitle, "disk.img.xz")],
    [1, 2], some Codec.gzip, true, .ok⟩

/-- A matching layer whose fetch fails. -/
def wLayerFetchFail : LayerB :=
  ⟨customMediaType, "sha256:d", 4, none, [3], none, false, .ok⟩

/-- An environment where every stage outcome is success. -/
def wEnv (ls : List LayerB) : Env :=
  ⟨true, "v1", true, false, "amd64", true, true, true, ls, true, true⟩

/-- An environment whose image reference has no tag or digest. -/
def wEnvNoTag : Env :=
  ⟨true, "", true, false, "amd64", true, true, true, [], true, true⟩

/-- An environment where the device sync and the partition-table
re-read both fail. -/
def wEnvWarn : Env :=
  ⟨true, "v1", true, false, "amd64", true, true, true, [wLayerTar],
    false, false⟩

/-! ## Theorems -/

theorem sinkAccept_le (caps : Nat → Option Nat) (i req : Nat) :
    sinkAccept caps i req ≤ req := by
  unfold sinkAccept
  cases caps i with
  | none => exact Nat.le_refl req
  | some c => exact Nat.min_le_right c req

/-- A completed copy has moved every source byte through both counters
and delivered every source byte to the sink, from any starting state. -/
theorem ioCopy_success_counts (caps : Nat → Option Nat) :
    ∀ (chunks : List (List Nat)) (i : Nat) (st : ProgressSt) (out : List Nat),
      (ioCopy caps chunks i st out).2.2 = true →
      (ioCopy caps chunks i st out).1.rBytes = st.rBytes + chunks.flatten.length ∧
      (ioCopy caps chunks i st out).1.wBytes = st.wBytes + chunks.flatten.length ∧
      (ioCopy caps chunks i st out).2.1 = out ++ chunks.flatten := by
  intro chunks
  induction chunks with
  | nil => intro i st out _; simp [ioCopy]
  | cons chunk rest ih =>
    intro i st out h
    by_cases hz : chunk.length = 0
    · have hnil : chunk = [] := List.length_eq_zero.mp hz
      subst hnil
      simp only [ioCopy, List.length_nil, if_pos rfl] at h ⊢
      have := ih i (progRead st 0) out h
      simpa [progRead] using this
    · by_cases hsh : sinkAccept caps i chunk.length < chunk.length
      · simp only [ioCopy, if_neg hz, if_pos hsh] at h
        exact absurd h (by simp)
      · have hnw : sinkAccept caps i chunk.length = chunk.length :=
          Nat.le_antisymm (sinkAccept_le caps i chunk.length) (Nat.le_of_not_lt hsh)
        simp only [ioCopy, if_neg hz, if_neg hsh] at h ⊢
        have := ih (i + 1) (progWrite (progRead st chunk.length)
          (sinkAccept caps i chunk.length)) (out ++ chunk.take (sinkAccept caps i chunk.length)) h
        rcases this with ⟨hr, hw, ho⟩
        refine ⟨?_, ?_, ?_⟩
        · rw [hr]; simp [progRead, progWrite]; omega
        · rw [hw]; simp [progRead, progWrite, hnw]; omega
        · rw [ho, hnw, List.take_length]; simp

/-! ### Step lemmas for the layer loop -/

theorem processLayers_nil (dec : Codec → List Nat → List Nat)
    (st : PipeSt) (total processed : Nat) :
    processLayers dec [] st total processed = (st, .ok (total, processed)) := rfl

theorem processLayers_cons_skip (dec : Codec → List Nat → List Nat)
    (l : LayerB) (rest : List LayerB) (st : PipeSt) (total processed : Nat)
    (h : l.mediaType ≠ customMediaType) :
    processLayers dec (l :: rest) st total processed =
      processLayers dec rest
        { st with logs := st.logs ++ [.debugSkip l.mediaType] } total processed := by
  simp only [processLayers, if_pos h]

theorem processLayers_cons_fetchFail (dec : Codec → List Nat → List Nat)
    (l : LayerB) (rest : List LayerB) (st : PipeSt) (total processed : Nat)
    (hm : l.mediaType = customMediaType) (hf : l.fetchOk = false) :
    processLayers dec (l :: rest) st total processed =
      ({ st with logs := st.logs ++ [.infoFetchLayer l.digest l.size] },
        .error (.layerFetchFailed l.digest)) := by
  simp [processLayers, hm, hf]

theorem processLayers_cons_decompFail (dec : Codec → List Nat → List Nat)
    (l : LayerB) (rest : List LayerB) (st : PipeSt) (total processed : Nat)
    (e : FindErr)
    (hm : l.mediaType = customMediaType) (hf : l.fetchOk = true)
    (hsel : selectDecompressor l = .error e) (hos : st.openStreams = []) :
    processLayers dec (l :: rest) st total processed =
      ({ st with logs := st.logs ++ [.infoFetchLayer l.digest l.size],
                 fetched := st.fetched ++ [l.digest],
                 openStreams := [] },
        .error (.decompressorFailed e)) := by
  simp [processLayers, hm, hf, hsel, closeStream, hos]

theorem processLayers_cons_processed (dec : Codec → List Nat → List Nat)
    (l : LayerB) (rest : List LayerB) (st : PipeSt) (total processed : Nat)
    (sel : Option Codec)
    (hm : l.mediaType = customMediaType) (hf : l.fetchOk = true)
    (hsel : selectDecompressor l = .ok sel) (hcopy : l.copy = .ok)
    (hos : st.openStreams = []) :
    processLayers dec (l :: rest) st total processed =
      processLayers dec rest
        { st with device := st.device ++ layerOutput dec l sel,
                  logs := st.logs ++ [.infoFetchLayer l.digest l.size],
                  fetched := st.fetched ++ [l.digest],
                  openStreams := [] }
        (total + (layerOutput dec l sel).length) (processed + 1) := by
  simp [processLayers, hm, hf, hsel, hcopy, closeStream, hos]

theorem processLayers_cons_copyFail (dec : Codec → List Nat → List Nat)
    (l : LayerB) (rest : List LayerB) (st : PipeSt) (total processed : Nat)
    (sel : Option Codec) (k : Nat)
    (hm : l.mediaType = customMediaType) (hf : l.fetchOk = true)
    (hsel : selectDecompressor l = .ok sel) (hcopy : l.copy = .fail k)
    (hos : st.openStreams = []) :
    processLayers dec (l :: rest) st total processed =
      ({ st with device := st.device ++ (layerOutput dec l sel).take k,
                 logs := st.logs ++ [.infoFetchLayer l.digest l.size],
                 fetched := st.fetched ++ [l.digest],
                 openStreams := [] },
        .error .deviceWriteFailed) := by
  simp [processLayers, hm, hf, hsel, hcopy, closeStream, hos]

/-- Whenever the layer loop finishes without error, it has written the
decompressed output of exactly the matching layers (in manifest order),
logged one debug line per skipped layer and one fetch line per matching
layer, fetched exactly the matching layers, closed every fetched
stream, and returned their total output length and count. -/
theorem processLayers_ok_spec (dec : Codec → List Nat → List Nat) :
    ∀ (ls : List LayerB) (st : PipeSt) (total processed : Nat)
      (st' : PipeSt) (t p : Nat),
      st.openStreams = [] →
      processLayers dec ls st total processed = (st', .ok (t, p)) →
      st'.device = st.device ++ ((ls.filter layerMatches).map (goodOutput dec)).flatten ∧
      st'.logs = st.logs ++ (ls.map perLayerLogs).flatten ∧
      st'.fetched = st.fetched ++ (ls.filter layerMatches).map LayerB.digest ∧
      st'.openStreams = [] ∧
      t = total + ((ls.filter layerMatches).map (goodOutput dec)).flatten.length ∧
      p = processed + (ls.filter layerMatches).length := by
  intro ls
  induction ls with
  | nil =>
    intro st total processed st' t p hos h
    simp only [processLayers_nil, Prod.mk.injEq, Except.ok.injEq] at h
    obtain ⟨h1, h2, h3⟩ := h
    subst h1; subst h2; subst h3
    simp [hos]
  | cons l rest ih =>
    intro st total processed st' t p hos h
    by_cases hm : l.mediaType = customMediaType
    · have hmatch : layerMatches l = true := by simp [layerMatches, hm]
      cases hfetch : l.fetchOk with
      | false =>
        rw [processLayers_cons_fetchFail dec l rest st total processed hm hfetch] at h
        simp at h
      | true =>
        cases hsel : selectDecompressor l with
        | error e =>
          rw [processLayers_cons_decompFail dec l rest st total processed e
            hm hfetch hsel hos] at h
          simp at h
        | ok sel =>
          cases hcopy : l.copy with
          | fail k =>
            rw [processLayers_cons_copyFail dec l rest st total processed sel k
              hm hfetch hsel hcopy hos] at h
            simp at h
          | ok =>
            rw [processLayers_cons_processed dec l rest st total processed sel
              hm hfetch hsel hcopy hos] at h
            obtain ⟨h1, h2, h3, h4, h5, h6⟩ := ih _ _ _ _ _ _ rfl h
            have hout : goodOutput dec l = layerOutput dec l sel := by
              simp [goodOutput, hsel]
            have hlog : perLayerLogs l = [.infoFetchLayer l.digest l.size] := by
              simp [perLayerLogs, hmatch]
            refine ⟨?_, ?_, ?_, h4, ?_, ?_⟩
            · simp [h1, List.filter_cons_of_pos, hmatch, hout]
            · simp [h2, hlog]
            · simp [h3, List.filter_cons_of_pos, hmatch]
            · simp [h5, List.filter_cons_of_pos, hmatch, hout]; omega
            · simp [h6, List.filter_cons_of_pos, hmatch]; omega
    · have hmatch : layerMatches l = false := by simp [layerMatches, hm]
      rw [processLayers_cons_skip dec l rest st total processed hm] at h
      have hos2 : ({ st with logs := st.logs ++ [LogEvent.debugSkip l.mediaType] }
          : PipeSt).openStreams = [] := hos
      obtain ⟨h1, h2, h3, h4, h5, h6⟩ := ih _ _ _ _ _ _ hos2 h
      have hlog : perLayerLogs l = [.debugSkip l.mediaType] := by
        simp [perLayerLogs, hmatch]
      refine ⟨?_, ?_, ?_, h4, ?_, ?_⟩
      · simp [h1, List.filter_cons_of_neg, hmatch]
      · simp [h2, hlog]
      · simp [h3, List.filter_cons_of_neg, hmatch]
      · simp [h5, List.filter_cons_of_neg, hmatch]
      · simp [h6, List.filter_cons_of_neg, hmatch]

/-- The loop over `xs ++ ys` is the loop over `ys` started from the
state and totals the loop over `xs` finished with, whenever the `xs`
part runs without error. -/
theorem processLayers_append_ok (dec : Codec → List Nat → List Nat) :
    ∀ (xs ys : List LayerB) (st : PipeSt) (total processed : Nat)
      (st1 : PipeSt) (t1 p1 : Nat),
      processLayers dec xs st total processed = (st1, .ok (t1, p1)) →
      processLayers dec (xs ++ ys) st total processed =
        processLayers dec ys st1 t1 p1 := by
  intro xs
  induction xs with
  | nil =>
    intro ys st total processed st1 t1 p1 h
    simp only [processLayers_nil, Prod.mk.injEq, Except.ok.injEq] at h
    obtain ⟨h1, h2, h3⟩ := h
    subst h1; subst h2; subst h3
    simp
  | cons l rest ih =>
    intro ys st total processed st1 t1 p1 h
    by_cases hm : l.mediaType ≠ customMediaType
    · rw [List.cons_append, processLayers_cons_skip dec l (rest ++ ys) st total processed hm]
      rw [processLayers_cons_skip dec l rest st total processed hm] at h
      exact ih ys _ _ _ _ _ _ h
    · push_neg at hm
      simp only [List.cons_append, processLayers, if_neg (by simp [hm] :
        ¬ l.mediaType ≠ customMediaType)] at h ⊢
      cases hfetch : l.fetchOk with
      | false =>
        simp only [hfetch] at h ⊢
        simp at h
      | true =>
        simp only [hfetch] at h ⊢
        cases hsel : selectDecompressor l with
        | error e =>
          simp only [hsel] at h ⊢
          simp at h
        | ok sel =>
          simp only [hsel] at h ⊢
          cases hcopy : l.copy with
          | fail k =>
            simp only [hcopy] at h ⊢
            simp at h
          | ok =>
            simp only [hcopy] at h ⊢
            exact ih ys _ _ _ _ _ _ h

/-- When every stage before the loop succeeds and the loop aborts with
an error, `Write` returns that error with the loop's observable state;
the deferred close has released the device handle. -/
theorem runWrite_of_loop_error (dec : Codec → List Nat → List Nat) (env : Env)
    (e : WriteErr) (st' : PipeSt)
    (h : stagesOk env)
    (hl : processLayers dec env.layers ⟨[], preLoopLogs env, [], []⟩ 0 0 =
      (st', .error e)) :
    runWrite dec env =
      { result := .error e, device := st'.device, logs := st'.logs,
        fetched := st'.fetched, openStreams := st'.openStreams,
        deviceOpened := true, deviceCreated := !env.pathExisted,
        deviceClosed := true } := by
  obtain ⟨h1, h2, h3, h4, h5, h6⟩ := h
  simp only [runWrite, h1, h2, h3, h4, h5, h6, hl]
  simp

/-- When every stage before the loop succeeds and the loop finishes
with zero processed layers, `Write` fails with the no-matching-layers
error. -/
theorem runWrite_of_loop_zero (dec : Codec → List Nat → List Nat) (env : Env)
    (st' : PipeSt) (t : Nat)
    (h : stagesOk env)
    (hl : processLayers dec env.layers ⟨[], preLoopLogs env, [], []⟩ 0 0 =
      (st', .ok (t, 0))) :
    runWrite dec env =
      { result := .error .noMatchingLayers, device := st'.device,
        logs := st'.logs, fetched := st'.fetched,
        openStreams := st'.openStreams, deviceOpened := true,
        deviceCreated := !env.pathExisted, deviceClosed := true } := by
  obtain ⟨h1, h2, h3, h4, h5, h6⟩ := h
  simp only [runWrite, h1, h2, h3, h4, h5, h6, hl]
  simp

/-- When every stage before the loop succeeds and the loop finishes
with at least one processed layer, `Write` succeeds, logs the summary
line, and downgrades sync and re-probe failures to warning lines. -/
theorem runWrite_of_loop_pos (dec : Codec → List Nat → List Nat) (env : Env)
    (st' : PipeSt) (t p : Nat)
    (h : stagesOk env)
    (hl : processLayers dec env.layers ⟨[], preLoopLogs env, [], []⟩ 0 0 =
      (st', .ok (t, p)))
    (hp : p ≠ 0) :
    runWrite dec env =
      { result := .ok (), device := st'.device,
        logs := ((st'.logs ++ [LogEvent.infoSummary p t]) ++
            (if env.syncOk = false then [LogEvent.warnSyncFailed] else [])) ++
          (if env.ioctlOk = false then [LogEvent.warnReprobeFailed] else []),
        fetched := st'.fetched, openStreams := st'.openStreams,
        deviceOpened := true, deviceCreated := !env.pathExisted,
        deviceClosed := true } := by
  obtain ⟨h1, h2, h3, h4, h5, h6⟩ := h
  simp only [runWrite, h1, h2, h3, h4, h5, h6, hl]
  simp only [if_neg hp]
  cases hsync : env.syncOk <;> cases hioctl : env.ioctlOk <;> simp [hsync, hioctl]

/-- If no layer matches the recognized media type, the loop only logs
skip lines and finishes with its state otherwise untouched and its
totals unchanged. -/
theorem processLayers_all_skip (dec : Codec → List Nat → List Nat) :
    ∀ (ls : List LayerB) (st : PipeSt) (total processed : Nat),
      (∀ l ∈ ls, l.mediaType ≠ customMediaType) →
      ∃ logs2, processLayers dec ls st total processed =
        ({ st with logs := logs2 }, .ok (total, processed)) := by
  intro ls
  induction ls with
  | nil =>
    intro st total processed _
    exact ⟨st.logs, by simp [processLayers_nil]⟩
  | cons l rest ih =>
    intro st total processed h
    have hm : l.mediaType ≠ customMediaType := h l (by simp)
    rw [processLayers_cons_skip dec l rest st total processed hm]
    obtain ⟨logs2, heq⟩ := ih { st with logs := st.logs ++ [.debugSkip l.mediaType] }
      total processed (fun q hq => h q (by simp [hq]))
    exact ⟨logs2, heq⟩

/-- Each enabled step of the reporter stop protocol preserves the
protocol invariant. -/
theorem repStep_inv (s s' : RepSt) (step : RepStep)
    (hs : repInv s) (h : repStep s step = some s') : repInv s' := by
  obtain ⟨h1, h2, h3⟩ := hs
  cases step <;> simp only [repStep] at h
  case tick =>
    split at h
    · obtain rfl := Option.some.inj h
      refine ⟨by simpa using h1, by simpa using h2, by simpa using h3⟩
    · exact absurd h (by simp)
  case stopSync =>
    split at h
    · obtain rfl := Option.some.inj h
      rename_i hc
      refine ⟨by simp_all, ?_, by simp⟩
      rw [hc.2] at h2
      simpa using h2
    · exact absurd h (by simp)
  case emitFinal =>
    split at h
    · obtain rfl := Option.some.inj h
      rename_i hc
      refine ⟨by simp_all, by simpa using h2, by simp⟩
    · exact absurd h (by simp)
  case close =>
    split at h
    · obtain rfl := Option.some.inj h
      rename_i hc
      refine ⟨by simpa using h1, by simp, ?_⟩
      have := h3 (by simp [hc])
      simpa using this
    · exact absurd h (by simp)

/-- The protocol invariant holds in every state reachable from a state
satisfying it. -/
theorem repRun_inv :
    ∀ (trace : List RepStep) (s0 s : RepSt),
      repInv s0 → repRun s0 trace = some s → repInv s := by
  intro trace
  induction trace with
  | nil =>
    intro s0 s h0 h
    obtain rfl := Option.some.inj h
    exact h0
  | cons step rest ih =>
    intro s0 s h0 h
    simp only [repRun] at h
    cases hstep : repStep s0 step with
    | none => rw [hstep] at h; exact absurd h (by simp)
    | some s1 =>
      rw [hstep] at h
      exact ih s1 s (repStep_inv s0 s1 step h0 hstep) h

/-! ## Claims -/

/-- Claim C1: whenever the layer loop runs to completion, it fetches
and writes exactly the layers whose declared media type equals the
single constant `application/vnd.oci.image.layer.v1.tar` (in manifest
order), and every layer of any other media type contributes exactly one
debug-severity skip line to the log and is never fetched. -/
theorem pipeline_processes_exactly_matching_layers
    (dec : Codec → List Nat → List Nat) (ls : List LayerB) (st : PipeSt)
    (total processed : Nat) (st' : PipeSt) (t p : Nat)
    (hos : st.openStreams = [])
    (h : processLayers dec ls st total processed = (st', .ok (t, p))) :
    st'.fetched = st.fetched ++ (ls.filter layerMatches).map LayerB.digest ∧
    st'.device = st.device ++ ((ls.filter layerMatches).map (goodOutput dec)).flatten ∧
    st'.logs = st.logs ++ (ls.map perLayerLogs).flatten ∧
    (∀ l : LayerB, layerMatches l = false →
      perLayerLogs l = [LogEvent.debugSkip l.mediaType] ∧
      (LogEvent.debugSkip l.mediaType).severity = Severity.debug) ∧
    (∀ l : LayerB, layerMatches l = true →
      perLayerLogs l = [LogEvent.infoFetchLayer l.digest l.size]) ∧
    (∀ l : LayerB, layerMatches l = true ↔ l.mediaType = customMediaType) := by
  obtain ⟨h1, h2, h3, _, _, _⟩ :=
    processLayers_ok_spec dec ls st total processed st' t p hos h
  refine ⟨h3, h1, h2, ?_, ?_, ?_⟩
  · intro l hl
    exact ⟨by simp [perLayerLogs, hl], rfl⟩
  · intro l hl
    simp [perLayerLogs, hl]
  · intro l
    simp [layerMatches]

theorem pipeline_processes_exactly_matching_layers_witness :
    (⟨[7], [.infoFetchLayer "sha256:a" 1, .debugSkip "text/plain"],
      ["sha256:a"], []⟩ : PipeSt).fetched =
      [] ++ ([wLayerTar, wLayerOther].filter layerMatches).map LayerB.digest :=
  (pipeline_processes_exactly_matching_layers decId [wLayerTar, wLayerOther]
    ⟨[], [], [], []⟩ 0 0
    ⟨[7], [.infoFetchLayer "sha256:a" 1, .debugSkip "text/plain"],
      ["sha256:a"], []⟩ 1 1 rfl rfl).1

/-- Claim C2: the codec selector dispatches on the name's final suffix
by exact, case-sensitive match: `.bz2`/`.bzip2` give the bzip2 reader,
`.gz` the gzip reader, `.xz` the xz reader (each of the latter two
provided its eager header check passes), `.zs`/`.zst` the zstd reader,
and every other suffix — or no suffix — fails with the
unsupported-codec error rather than producing a reader. -/
theorem codec_selector_suffix_dispatch (name : String) (hdr : Header) :
    ((filepathExt name = ".bz2" ∨ filepathExt name = ".bzip2") →
      findDecompressor name hdr = .ok Codec.bzip2) ∧
    (filepathExt name = ".gz" → codecInitOk Codec.gzip hdr = true →
      findDecompressor name hdr = .ok Codec.gzip) ∧
    (filepathExt name = ".xz" → codecInitOk Codec.xz hdr = true →
      findDecompressor name hdr = .ok Codec.xz) ∧
    ((filepathExt name = ".zs" ∨ filepathExt name = ".zst") →
      findDecompressor name hdr = .ok Codec.zstd) ∧
    (filepathExt name ≠ ".bz2" → filepathExt name ≠ ".bzip2" →
      filepathExt name ≠ ".gz" → filepathExt name ≠ ".xz" →
      filepathExt name ≠ ".zs" → filepathExt name ≠ ".zst" →
      findDecompressor name hdr =
        .error (.unsupportedCodec (filepathExt name))) := by
  refine ⟨?_, ?_, ?_, ?_, ?_⟩
  · rintro (h | h) <;> simp [findDecompressor, h]
  · intro h hinit
    simp [findDecompressor, h, hinit]
  · intro h hinit
    simp [findDecompressor, h, hinit]
  · rintro (h | h) <;> simp [findDecompressor, h]
  · intro n1 n2 n3 n4 n5 n6
    unfold findDecompressor
    split <;> simp_all

theorem codec_selector_suffix_dispatch_witness :
    findDecompressor "disk.img.gz" (some Codec.gzip) = .ok Codec.gzip ∧
    findDecompressor "disk.img.GZ" (some Codec.gzip) =
      .error (.unsupportedCodec ".GZ") ∧
    findDecompressor "disk.img" (some Codec.gzip) =
      .error (.unsupportedCodec ".img") :=
  ⟨(codec_selector_suffix_dispatch "disk.img.gz" (some Codec.gzip)).2.1 rfl rfl,
   (codec_selector_suffix_dispatch "disk.img.GZ" (some Codec.gzip)).2.2.2.2
     (by decide) (by decide) (by decide) (by decide) (by decide) (by decide),
   (codec_selector_suffix_dispatch "disk.img" (some Codec.gzip)).2.2.2.2
     (by decide) (by decide) (by decide) (by decide) (by decide) (by decide)⟩

/-- Claim C3: a matching layer whose annotation map is absent, or lacks
the title key, gets no decompressor (`selectDecompressor` yields the
pass-through) and a completed copy delivers the fetched bytes to the
device unchanged. -/
theorem passthrough_when_title_missing
    (dec : Codec → List Nat → List Nat) (l : LayerB) (rest : List LayerB)
    (st : PipeSt) (total processed : Nat)
    (hm : l.mediaType = customMediaType)
    (ht : l.annotations = none ∨
      ∃ m, l.annotations = some m ∧ m.lookup annotationTitle = none)
    (hf : l.fetchOk = true) (hcopy : l.copy = .ok)
    (hos : st.openStreams = []) :
    selectDecompressor l = .ok none ∧
    processLayers dec (l :: rest) st total processed =
      processLayers dec rest
        { st with device := st.device ++ l.content,
                  logs := st.logs ++ [.infoFetchLayer l.digest l.size],
                  fetched := st.fetched ++ [l.digest],
                  openStreams := [] }
        (total + l.content.length) (processed + 1) := by
  have hsel : selectDecompressor l = .ok none := by
    rcases ht with h | ⟨m, hm2, hlk⟩
    · simp [selectDecompressor, h]
    · simp [selectDecompressor, hm2, hlk]
  refine ⟨hsel, ?_⟩
  have := processLayers_cons_processed dec l rest st total processed none
    hm hf hsel hcopy hos
  simpa [layerOutput] using this

theorem passthrough_when_title_missing_witness :
    selectDecompressor wLayerTar = .ok none ∧
    processLayers decId [wLayerTar] ⟨[], [], [], []⟩ 0 0 =
      processLayers decId []
        ⟨[] ++ wLayerTar.content,
          [] ++ [.infoFetchLayer wLayerTar.digest wLayerTar.size],
          [] ++ [wLayerTar.digest], []⟩
        (0 + wLayerTar.content.length) (0 + 1) :=
  passthrough_when_title_missing decId wLayerTar [] ⟨[], [], [], []⟩ 0 0
    rfl (Or.inl rfl) rfl rfl rfl

/-- Claim C4: a copy that runs to completion has moved every one of the
source's `N` bytes through both counters — the read counter and the
write counter both end at `N`, with partial reads and partial-write
accounting handled — and each `Read`/`Write` call only ever increases
the counters. -/
theorem progress_counters_track_full_copy
    (caps : Nat → Option Nat) (chunks : List (List Nat))
    (st : ProgressSt) (nr nw : Nat) :
    ((ioCopy caps chunks 0 ProgressSt.init []).2.2 = true →
      (ioCopy caps chunks 0 ProgressSt.init []).1.rBytes =
        chunks.flatten.length ∧
      (ioCopy caps chunks 0 ProgressSt.init []).1.wBytes =
        chunks.flatten.length) ∧
    st.rBytes ≤ (progRead st nr).rBytes ∧
    st.wBytes ≤ (progRead st nr).wBytes ∧
    st.rBytes ≤ (progWrite st nw).rBytes ∧
    st.wBytes ≤ (progWrite st nw).wBytes := by
  refine ⟨fun h => ?_, ?_, ?_, ?_, ?_⟩
  · obtain ⟨hr, hw, _⟩ := ioCopy_success_counts caps chunks 0 ProgressSt.init [] h
    constructor
    · simpa [ProgressSt.init] using hr
    · simpa [ProgressSt.init] using hw
  · simp [progRead]
  · simp [progRead]
  · simp [progWrite]
  · simp [progWrite]

theorem progress_counters_track_full_copy_witness :
    (ioCopy (fun _ => none) [[5], [6, 7]] 0 ProgressSt.init []).1.rBytes = 3 ∧
    (ioCopy (fun _ => none) [[5], [6, 7]] 0 ProgressSt.init []).1.wBytes = 3 :=
  (progress_counters_track_full_copy (fun _ => none) [[5], [6, 7]]
    ProgressSt.init 0 0).1 rfl

/-- Claim C5: with a resolved and parsed manifest, if no layer carries
the recognized media type then `Write` fails with the
no-matching-layers error and the destination device receives zero
bytes; when the loop instead completes with at least one processed
layer, `Write` succeeds and logs the summary line carrying the
processed-layer count and the accumulated written-byte total. -/
theorem write_fails_without_matching_layers
    (dec : Codec → List Nat → List Nat) (env : Env) (hst : stagesOk env) :
    ((∀ l ∈ env.layers, l.mediaType ≠ customMediaType) →
      (runWrite dec env).result = .error .noMatchingLayers ∧
      (runWrite dec env).device = []) ∧
    (∀ (st' : PipeSt) (t p : Nat),
      processLayers dec env.layers ⟨[], preLoopLogs env, [], []⟩ 0 0 =
        (st', .ok (t, p)) → p ≠ 0 →
      (runWrite dec env).result = .ok () ∧
      LogEvent.infoSummary p t ∈ (runWrite dec env).logs) := by
  constructor
  · intro hall
    obtain ⟨logs2, heq⟩ := processLayers_all_skip dec env.layers
      ⟨[], preLoopLogs env, [], []⟩ 0 0 hall
    rw [runWrite_of_loop_zero dec env _ 0 hst heq]
    exact ⟨rfl, rfl⟩
  · intro st' t p hl hp
    rw [runWrite_of_loop_pos dec env st' t p hst hl hp]
    exact ⟨rfl, by simp⟩

theorem write_fails_without_matching_layers_witness :
    (runWrite decId (wEnv [wLayerOther])).result = .error .noMatchingLayers ∧
    (runWrite decId (wEnv [wLayerOther])).device = [] :=
  (write_fails_without_matching_layers decId (wEnv [wLayerOther])
    ⟨rfl, rfl, by decide, rfl, rfl, rfl⟩).1
    (by
      intro l hl
      simp only [wEnv, List.mem_singleton] at hl
      subst hl
      decide)

/-- Claim C6: a matching layer whose decompressor construction fails
(for example an `.xz` title over gzip-encoded content) aborts the whole
run with the decompressor-init error wrapping the cause; the fetched
layer stream has been closed, no bytes of that layer reached the
device, and the deferred close has released the destination device
handle. -/
theorem decompressor_init_failure_aborts_cleanly
    (dec : Codec → List Nat → List Nat) (env : Env)
    (pre post : List LayerB) (l : LayerB) (e : FindErr)
    (stPre : PipeSt) (t p : Nat)
    (hst : stagesOk env) (hsplit : env.layers = pre ++ l :: post)
    (hpre : processLayers dec pre ⟨[], preLoopLogs env, [], []⟩ 0 0 =
      (stPre, .ok (t, p)))
    (hm : l.mediaType = customMediaType) (hf : l.fetchOk = true)
    (hsel : selectDecompressor l = .error e) :
    (runWrite dec env).result = .error (.decompressorFailed e) ∧
    (runWrite dec env).device = stPre.device ∧
    (runWrite dec env).openStreams = [] ∧
    (runWrite dec env).deviceClosed = true := by
  have hos : stPre.openStreams = [] :=
    (processLayers_ok_spec dec pre ⟨[], preLoopLogs env, [], []⟩ 0 0
      stPre t p rfl hpre).2.2.2.1
  have hloop : processLayers dec env.layers ⟨[], preLoopLogs env, [], []⟩ 0 0 =
      ({ stPre with logs := stPre.logs ++ [.infoFetchLayer l.digest l.size],
                    fetched := stPre.fetched ++ [l.digest],
                    openStreams := [] },
        .error (.decompressorFailed e)) := by
    rw [hsplit, processLayers_append_ok dec pre (l :: post) _ 0 0 stPre t p hpre,
        processLayers_cons_decompFail dec l post stPre t p e hm hf hsel hos]
  rw [runWrite_of_loop_error dec env (.decompressorFailed e) _ hst hloop]
  exact ⟨rfl, rfl, rfl, rfl⟩

theorem decompressor_init_failure_aborts_cleanly_witness :
    (runWrite decId (wEnv [wLayerXzBad])).result =
      .error (.decompressorFailed (.codecInit Codec.xz)) ∧
    (runWrite decId (wEnv [wLayerXzBad])).device = [] ∧
    (runWrite decId (wEnv [wLayerXzBad])).openStreams = [] ∧
    (runWrite decId (wEnv [wLayerXzBad])).deviceClosed = true :=
  decompressor_init_failure_aborts_cleanly decId (wEnv [wLayerXzBad])
    [] [] wLayerXzBad (.codecInit Codec.xz)
    ⟨[], preLoopLogs (wEnv [wLayerXzBad]), [], []⟩ 0 0
    ⟨rfl, rfl, by decide, rfl, rfl, rfl⟩ rfl rfl rfl rfl rfl

/-- Claim C7: once the layer loop has completed with at least one
processed layer, `Write` returns success whatever the outcomes of the
device sync and the partition-table re-read; each of those failures
only adds a warning-severity log line. -/
theorem sync_and_reprobe_failures_nonfatal
    (dec : Codec → List Nat → List Nat) (env : Env)
    (st' : PipeSt) (t p : Nat)
    (hst : stagesOk env)
    (hl : processLayers dec env.layers ⟨[], preLoopLogs env, [], []⟩ 0 0 =
      (st', .ok (t, p)))
    (hp : p ≠ 0) :
    (runWrite dec env).result = .ok () ∧
    (env.syncOk = false →
      LogEvent.warnSyncFailed ∈ (runWrite dec env).logs ∧
      LogEvent.warnSyncFailed.severity = Severity.warn) ∧
    (env.ioctlOk = false →
      LogEvent.warnReprobeFailed ∈ (runWrite dec env).logs ∧
      LogEvent.warnReprobeFailed.severity = Severity.warn) := by
  rw [runWrite_of_loop_pos dec env st' t p hst hl hp]
  refine ⟨rfl, ?_, ?_⟩
  · intro hs
    exact ⟨by simp [hs], rfl⟩
  · intro hio
    exact ⟨by simp [hio], rfl⟩

theorem sync_and_reprobe_failures_nonfatal_witness :
    (runWrite decId wEnvWarn).result = .ok () ∧
    LogEvent.warnSyncFailed ∈ (runWrite decId wEnvWarn).logs ∧
    LogEvent.warnReprobeFailed ∈ (runWrite decId wEnvWarn).logs :=
  ⟨(sync_and_reprobe_failures_nonfatal decId wEnvWarn
      ⟨[7], [.infoBegin, .infoPlatform "linux" "amd64",
        .infoFetchLayer "sha256:a" 1], ["sha256:a"], []⟩ 1 1
      ⟨rfl, rfl, by decide, rfl, rfl, rfl⟩ rfl (by decide)).1,
   ((sync_and_reprobe_failures_nonfatal decId wEnvWarn
      ⟨[7], [.infoBegin, .infoPlatform "linux" "amd64",
        .infoFetchLayer "sha256:a" 1], ["sha256:a"], []⟩ 1 1
      ⟨rfl, rfl, by decide, rfl, rfl, rfl⟩ rfl (by decide)).2.1 rfl).1,
   ((sync_and_reprobe_failures_nonfatal decId wEnvWarn
      ⟨[7], [.infoBegin, .infoPlatform "linux" "amd64",
        .infoFetchLayer "sha256:a" 1], ["sha256:a"], []⟩ 1 1
      ⟨rfl, rfl, by decide, rfl, rfl, rfl⟩ rfl (by decide)).2.2 rfl).1⟩

/-- Claim C9: with the repository handle created and the device open
succeeding, an invocation whose reference carries no tag or digest
still fails with the invalid-reference error only after the destination
was opened — and created when it did not exist — and the deferred close
then releases the handle. -/
theorem device_opened_before_reference_validation
    (dec : Codec → List Nat → List Nat) (env : Env)
    (hrepo : env.repoOk = true) (hopen : env.openOk = true)
    (htag : env.tagOrDigest = "") :
    (runWrite dec env).result = .error .refInvalid ∧
    (runWrite dec env).deviceOpened = true ∧
    (env.pathExisted = false → (runWrite dec env).deviceCreated = true) ∧
    (runWrite dec env).deviceClosed = true := by
  have heq : runWrite dec env =
      { result := .error .refInvalid, device := [],
        logs := [LogEvent.infoBegin], fetched := [], openStreams := [],
        deviceOpened := true, deviceCreated := !env.pathExisted,
        deviceClosed := true } := by
    simp [runWrite, hrepo, hopen, htag]
  rw [heq]
  refine ⟨rfl, rfl, ?_, rfl⟩
  intro h
  rw [h]
  rfl

theorem device_opened_before_reference_validation_witness :
    (runWrite decId wEnvNoTag).result = .error .refInvalid ∧
    (runWrite decId wEnvNoTag).deviceOpened = true ∧
    (runWrite decId wEnvNoTag).deviceCreated = true ∧
    (runWrite decId wEnvNoTag).deviceClosed = true :=
  ⟨(device_opened_before_reference_validation decId wEnvNoTag rfl rfl rfl).1,
   (device_opened_before_reference_validation decId wEnvNoTag rfl rfl rfl).2.1,
   (device_opened_before_reference_validation decId wEnvNoTag rfl rfl rfl).2.2.1 rfl,
   (device_opened_before_reference_validation decId wEnvNoTag rfl rfl rfl).2.2.2⟩

/-- Claim C10: a fatal per-layer error — fetch failure,
decompressor-init failure, or a copy failure part-way through — leaves
every byte already on the device in place (the processed prefix's
output, plus for a copy failure the failing layer's partial bytes) and
simply returns the error; no rollback or truncation happens. -/
theorem fatal_layer_error_performs_no_rollback
    (dec : Codec → List Nat → List Nat) (env : Env)
    (pre post : List LayerB) (l : LayerB) (stPre : PipeSt) (t p : Nat)
    (hst : stagesOk env) (hsplit : env.layers = pre ++ l :: post)
    (hpre : processLayers dec pre ⟨[], preLoopLogs env, [], []⟩ 0 0 =
      (stPre, .ok (t, p)))
    (hm : l.mediaType = customMediaType) :
    (l.fetchOk = false →
      (runWrite dec env).result = .error (.layerFetchFailed l.digest) ∧
      (runWrite dec env).device = stPre.device) ∧
    (∀ e : FindErr, l.fetchOk = true → selectDecompressor l = .error e →
      (runWrite dec env).result = .error (.decompressorFailed e) ∧
      (runWrite dec env).device = stPre.device) ∧
    (∀ (sel : Option Codec) (k : Nat), l.fetchOk = true →
      selectDecompressor l = .ok sel → l.copy = .fail k →
      (runWrite dec env).result = .error .deviceWriteFailed ∧
      (runWrite dec env).device =
        stPre.device ++ (layerOutput dec l sel).take k) := by
  have hos : stPre.openStreams = [] :=
    (processLayers_ok_spec dec pre ⟨[], preLoopLogs env, [], []⟩ 0 0
      stPre t p rfl hpre).2.2.2.1
  refine ⟨?_, ?_, ?_⟩
  · intro hf
    have hloop : processLayers dec env.layers ⟨[], preLoopLogs env, [], []⟩ 0 0 =
        ({ stPre with logs := stPre.logs ++ [.infoFetchLayer l.digest l.size] },
          .error (.layerFetchFailed l.digest)) := by
      rw [hsplit, processLayers_append_ok dec pre (l :: post) _ 0 0 stPre t p hpre,
          processLayers_cons_fetchFail dec l post stPre t p hm hf]
    rw [runWrite_of_loop_error dec env _ _ hst hloop]
    exact ⟨rfl, rfl⟩
  · intro e hf hsel
    have hloop : processLayers dec env.layers ⟨[], preLoopLogs env, [], []⟩ 0 0 =
        ({ stPre with logs := stPre.logs ++ [.infoFetchLayer l.digest l.size],
                      fetched := stPre.fetched ++ [l.digest],
                      openStreams := [] },
          .error (.decompressorFailed e)) := by
      rw [hsplit, processLayers_append_ok dec pre (l :: post) _ 0 0 stPre t p hpre,
          processLayers_cons_decompFail dec l post stPre t p e hm hf hsel hos]
    rw [runWrite_of_loop_error dec env _ _ hst hloop]
    exact ⟨rfl, rfl⟩
  · intro sel k hf hsel hcopy
    have hloop : processLayers dec env.layers ⟨[], preLoopLogs env, [], []⟩ 0 0 =
        ({ stPre with
            device := stPre.device ++ (layerOutput dec l sel).take k,
            logs := stPre.logs ++ [.infoFetchLayer l.digest l.size],
            fetched := stPre.fetched ++ [l.digest],
            openStreams := [] },
          .error .deviceWriteFailed) := by
      rw [hsplit, processLayers_append_ok dec pre (l :: post) _ 0 0 stPre t p hpre,
          processLayers_cons_copyFail dec l post stPre t p sel k hm hf hsel hcopy hos]
    rw [runWrite_of_loop_error dec env _ _ hst hloop]
    exact ⟨rfl, rfl⟩

theorem fatal_layer_error_performs_no_rollback_witness :
    (runWrite decId (wEnv [wLayerTar, wLayerFetchFail])).result =
      .error (.layerFetchFailed "sha256:d") ∧
    (runWrite decId (wEnv [wLayerTar, wLayerFetchFail])).device = [7] :=
  (fatal_layer_error_performs_no_rollback decId
    (wEnv [wLayerTar, wLayerFetchFail]) [wLayerTar] [] wLayerFetchFail
    ⟨[7], [.infoBegin, .infoPlatform "linux" "amd64",
      .infoFetchLayer "sha256:a" 1], ["sha256:a"], []⟩ 1 1
    ⟨rfl, rfl, by decide, rfl, rfl, rfl⟩ rfl rfl rfl).1 rfl

/-- Counterexample to claim C8's ordering guarantee: the schedule
"rendezvous on `done`, then close" is a valid execution in which the
orchestrator has released the decompressor and fetched stream while the
reporter has not yet emitted its final report. -/
theorem reporter_final_report_can_follow_release :
    ∃ s : RepSt,
      repRun RepSt.init [RepStep.stopSync, RepStep.close] = some s ∧
      s.resourcesReleased = true ∧ s.finalReports = 0 ∧
      s.rep ≠ RepPhase.finished := by
  refine ⟨⟨.gotStop, .closed, 0, 0, true⟩, ?_, rfl, rfl, by decide⟩
  rfl

/-- Claim C8 (amended): stopping the reporter yields exactly one final
report — it is logged exactly when the reporter finishes, never more —
and the unbuffered send is awaited until the reporter has received it,
so resources are only released after the rendezvous; the final report
itself, however, may be emitted after the release (it reads only the
shared counters). -/
theorem reporter_stop_exactly_one_final_report
    (trace : List RepStep) (s : RepSt)
    (h : repRun RepSt.init trace = some s) :
    (s.rep = RepPhase.finished → s.finalReports = 1) ∧
    (s.rep ≠ RepPhase.finished → s.finalReports = 0) ∧
    (s.resourcesReleased = true → s.rep ≠ RepPhase.waiting) := by
  have hinv : repInv s := repRun_inv trace RepSt.init s
    ⟨rfl, by simp [RepSt.init], fun hc => absurd rfl hc⟩ h
  obtain ⟨h1, h2, h3⟩ := hinv
  refine ⟨?_, ?_, ?_⟩
  · intro hf
    rw [hf] at h1
    simpa using h1
  · intro hf
    rw [if_neg hf] at h1
    exact h1
  · intro hr
    have horch : s.orch = OrchPhase.closed := h2.mp hr
    exact h3 (by simp [horch])

theorem reporter_stop_exactly_one_final_report_witness :
    ∃ s : RepSt,
      repRun RepSt.init
        [RepStep.stopSync, RepStep.emitFinal, RepStep.close] = some s ∧
      s.finalReports = 1 :=
  ⟨⟨.finished, .closed, 0, 1, true⟩, rfl,
    (reporter_stop_exactly_one_final_report
      [RepStep.stopSync, RepStep.emitFinal, RepStep.close]
      ⟨.finished, .closed, 0, 1, true⟩ rfl).1 rfl⟩

end Oci2Disk
